import Mathlib

/-!
Shallow embedding of the Whackers registration/login backend
(`src/UI/server.js`): the in-memory pending-registration store
(`OTP_STORE`), the three request handlers (`POST /send-otp`,
`POST /verify-otp`, `POST /login`) and the account collections they
touch.  Times are modelled as `Nat` milliseconds (`Date.now()`), the
random OTP and the outcomes of the email-send and database-insert
collaborators are explicit parameters, and absent JSON fields are
`Option.none`.
-/

namespace Whackers

/-- JS truthiness of an optional string request field: an absent field
(`undefined`) and the empty string are falsy, every other string is
truthy (mirrors the `if (!field)` guards in server.js). -/
def isTruthy : Option String → Bool
  | none => false
  | some s => !s.isEmpty

/-- The submitted registration payload held in a pending record
(`record.data`, server.js line 57). -/
structure Profile where
  role : String
  name : String
  email : String
  phone : String
  password : String
  deriving Repr, DecidableEq

/-- One entry of `OTP_STORE` (the object literal at server.js
lines 54-58): the expected code, the absolute expiry timestamp and the
submitted profile. -/
structure PendingRecord where
  otp : String
  expiresAt : Nat
  data : Profile
  deriving Repr, DecidableEq

/-- The key names of the object literal stored into `OTP_STORE[email]`
by the send-otp handler (server.js lines 54-58). -/
def pendingRecordFields : List String := ["otp", "expiresAt", "data"]

/-- Model of `OTP_STORE`: a map from email address to pending record,
an association list with at most one entry per key. -/
abbrev OtpStore := List (String × PendingRecord)

/-- Reading `OTP_STORE[email]` (server.js line 82). -/
def storeGet (s : OtpStore) (e : String) : Option PendingRecord :=
  (s.find? (fun p => p.1 == e)).map Prod.snd

/-- The statement `delete OTP_STORE[email]` (server.js lines 89
and 112). -/
def storeDelete (s : OtpStore) (e : String) : OtpStore :=
  s.filter (fun p => !(p.1 == e))

/-- The assignment `OTP_STORE[email] = record` (server.js line 54):
overwrites any existing entry for that email. -/
def storeSet (s : OtpStore) (e : String) (r : PendingRecord) : OtpStore :=
  (e, r) :: storeDelete s e

/-- An account document as inserted by the verify-otp handler
(server.js lines 102-108). -/
structure Account where
  name : String
  email : String
  phone : String
  password : String
  createdAt : Nat
  deriving Repr, DecidableEq

/-- A persisted account together with its system-assigned identifier
(`_id`). -/
structure StoredAccount where
  id : Nat
  account : Account
  deriving Repr, DecidableEq

/-- The two logical collections of the `kirana_system` database, plus a
counter modelling MongoDB's assignment of fresh identifiers. -/
structure Db where
  users : List StoredAccount
  shopkeepers : List StoredAccount
  nextId : Nat
  deriving Repr, DecidableEq

/-- The call `db.collection(collection).insertOne(record)` where
`collection` was chosen by `role === "shopkeeper" ? "shopkeepers" :
"users"` (server.js lines 100-108); returns the assigned id and the
new database state. -/
def dbInsert (db : Db) (collShop : Bool) (a : Account) : Nat × Db :=
  if collShop then
    (db.nextId, { db with shopkeepers := db.shopkeepers ++ [⟨db.nextId, a⟩],
                          nextId := db.nextId + 1 })
  else
    (db.nextId, { db with users := db.users ++ [⟨db.nextId, a⟩],
                          nextId := db.nextId + 1 })

/-- The body of a `POST /send-otp` request; each field may be absent. -/
structure Request where
  role : Option String
  name : Option String
  email : Option String
  phone : Option String
  password : Option String
  deriving Repr, DecidableEq

/-- The guard `if (!role || !name || !email || !phone || !password)`
(server.js line 43). -/
def allFieldsPresent (req : Request) : Bool :=
  isTruthy req.role && isTruthy req.name && isTruthy req.email &&
    isTruthy req.phone && isTruthy req.password

/-- The guard `["user", "shopkeeper"].includes(role)` (server.js
line 47). -/
def roleRecognized (req : Request) : Bool :=
  req.role.getD "" == "user" || req.role.getD "" == "shopkeeper"

/-- The profile stored into the pending record of a validated request
(server.js line 57); validation guarantees every field is present. -/
def mkProfile (req : Request) : Profile :=
  { role := req.role.getD "", name := req.name.getD "",
    email := req.email.getD "", phone := req.phone.getD "",
    password := req.password.getD "" }

/-- The response body of `POST /send-otp`. -/
structure SendResp where
  success : Bool
  message : String
  deriving Repr, DecidableEq

/-- Result of a send-otp call: the new store, the response, and
whether the OTP generator and the email collaborator were invoked. -/
structure SendResult where
  store : OtpStore
  resp : SendResp
  otpGenerated : Bool
  emailInvoked : Bool
  deriving Repr, DecidableEq

/-- The `POST /send-otp` handler (server.js lines 39-69).  `now` is
`Date.now()`, `otp` is the value the `generateOTP` collaborator would
return, and `emailOk` is whether `sendOTPEmail` resolves (when it
rejects, the catch block at line 65 answers "Failed to send OTP."
after the store was already written). -/
def sendOtp (store : OtpStore) (now : Nat) (otp : String) (req : Request)
    (emailOk : Bool) : SendResult :=
  if !(allFieldsPresent req) then
    ⟨store, ⟨false, "All fields are required."⟩, false, false⟩
  else if !(roleRecognized req) then
    ⟨store, ⟨false, "Invalid role."⟩, false, false⟩
  else
    let record : PendingRecord :=
      ⟨otp, now + 5 * 60 * 1000, mkProfile req⟩
    let store' := storeSet store (req.email.getD "") record
    if emailOk then
      ⟨store', ⟨true, "OTP sent successfully!"⟩, true, true⟩
    else
      ⟨store', ⟨false, "Failed to send OTP."⟩, true, true⟩

/-- The response body of `POST /verify-otp`. -/
structure VerifyResp where
  success : Bool
  message : String
  accountId : Option Nat
  role : Option String
  deriving Repr, DecidableEq

/-- Result of a verify-otp call: new store, new database, response. -/
structure VerifyResult where
  store : OtpStore
  db : Db
  resp : VerifyResp
  deriving Repr, DecidableEq

/-- The `POST /verify-otp` handler (server.js lines 74-125).  `now` is
`Date.now()`; `insertOk` is whether the `insertOne` collaborator call
resolves (when it throws, the catch block at line 121 answers "Server
error." and the `delete OTP_STORE[email]` at line 112 is never
reached).  Note the inserted document's `email` comes from the request
body (line 76), while `name`, `phone`, `password` and `role` come from
`record.data` (line 97). -/
def verifyOtp (store : OtpStore) (db : Db) (now : Nat)
    (email otp : Option String) (insertOk : Bool) : VerifyResult :=
  if !(isTruthy email && isTruthy otp) then
    ⟨store, db, ⟨false, "Email & OTP are required.", none, none⟩⟩
  else
    match storeGet store (email.getD "") with
    | none =>
        ⟨store, db, ⟨false, "OTP not found. Please request again.", none, none⟩⟩
    | some record =>
        if now > record.expiresAt then
          ⟨storeDelete store (email.getD ""), db,
            ⟨false, "OTP expired.", none, none⟩⟩
        else if record.otp != otp.getD "" then
          ⟨store, db, ⟨false, "Incorrect OTP.", none, none⟩⟩
        else if insertOk then
          let a : Account :=
            ⟨record.data.name, email.getD "", record.data.phone,
              record.data.password, now⟩
          let ins := dbInsert db (record.data.role == "shopkeeper") a
          ⟨storeDelete store (email.getD ""), ins.2,
            ⟨true, "OTP Verified! Account created.", some ins.1,
              some record.data.role⟩⟩
        else
          ⟨store, db, ⟨false, "Server error.", none, none⟩⟩

/-- The `user` object of a successful login response (server.js
lines 156-162). -/
structure LoginUser where
  id : Nat
  name : String
  email : String
  phone : String
  role : String
  deriving Repr, DecidableEq

/-- The response body of `POST /login`. -/
structure LoginResp where
  success : Bool
  message : String
  user : Option LoginUser
  deriving Repr, DecidableEq

/-- The `findOne({ email, password })` filter (server.js line 145):
plain equality on both fields, no hashing. -/
def accountMatches (e p : String) (sa : StoredAccount) : Bool :=
  sa.account.email == e && sa.account.password == p

/-- The `POST /login` handler (server.js lines 130-169).  It takes the
pending store only to show it neither reads nor writes it. -/
def login (store : OtpStore) (db : Db) (role email password : Option String) :
    OtpStore × Db × LoginResp :=
  if !(isTruthy role && isTruthy email && isTruthy password) then
    (store, db, ⟨false, "All fields are required.", none⟩)
  else
    let coll := if role.getD "" == "shopkeeper" then db.shopkeepers else db.users
    match coll.find? (accountMatches (email.getD "") (password.getD "")) with
    | none => (store, db, ⟨false, "Invalid email or password.", none⟩)
    | some u =>
        (store, db, ⟨true, "Login successful",
          some ⟨u.id, u.account.name, u.account.email, u.account.phone,
            role.getD ""⟩⟩)

/-- One incoming request, with the collaborator outcomes it needs. -/
inductive Op where
  | issue (now : Nat) (otp : String) (req : Request) (emailOk : Bool)
  | verify (now : Nat) (email otp : Option String) (insertOk : Bool)
  | loginOp (role email password : Option String)
  deriving Repr

/-- The process-wide mutable state: `OTP_STORE` plus the database. -/
structure ServerState where
  store : OtpStore
  db : Db
  deriving Repr, DecidableEq

/-- State transition of one request (responses discarded). -/
def step (s : ServerState) : Op → ServerState
  | .issue now otp req emailOk =>
      ⟨(sendOtp s.store now otp req emailOk).store, s.db⟩
  | .verify now email otp insertOk =>
      let r := verifyOtp s.store s.db now email otp insertOk
      ⟨r.store, r.db⟩
  | .loginOp role email password =>
      let r := login s.store s.db role email password
      ⟨r.1, r.2.1⟩

/-- Running a sequence of requests from a state. -/
def run (s : ServerState) (ops : List Op) : ServerState :=
  ops.foldl step s

/-- The email keys currently pending. -/
def storeKeys (s : OtpStore) : List String := s.map Prod.fst

/-- How many pending records the store holds for one email. -/
def countKey (s : OtpStore) (e : String) : Nat :=
  (s.filter (fun p => p.1 == e)).length

/-! ### Store lemmas -/

theorem storeGet_storeDelete_self (s : OtpStore) (e : String) :
    storeGet (storeDelete s e) e = none := by
  have : (storeDelete s e).find? (fun p => p.1 == e) = none := by
    rw [List.find?_eq_none]
    intro p hp
    have := (List.mem_filter.mp hp).2
    simpa using this
  simp [storeGet, this]

theorem storeGet_storeSet_self (s : OtpStore) (e : String) (r : PendingRecord) :
    storeGet (storeSet s e r) e = some r := by
  simp [storeGet, storeSet, List.find?_cons_of_pos]

theorem nodup_storeDelete (s : OtpStore) (e : String)
    (h : (storeKeys s).Nodup) : (storeKeys (storeDelete s e)).Nodup :=
  h.sublist (List.Sublist.map Prod.fst (List.filter_sublist s))

theorem not_mem_storeKeys_storeDelete (s : OtpStore) (e : String) :
    e ∉ storeKeys (storeDelete s e) := by
  simp only [storeKeys, storeDelete, List.mem_map, List.mem_filter]
  rintro ⟨p, ⟨_, hne⟩, hfst⟩
  simp [hfst] at hne

theorem nodup_storeSet (s : OtpStore) (e : String) (r : PendingRecord)
    (h : (storeKeys s).Nodup) : (storeKeys (storeSet s e r)).Nodup := by
  simp only [storeSet, storeKeys, List.map_cons]
  exact List.nodup_cons.mpr ⟨not_mem_storeKeys_storeDelete s e,
    nodup_storeDelete s e h⟩

theorem filter_key_eq_nil (s : OtpStore) (e : String) (h : e ∉ storeKeys s) :
    s.filter (fun p => p.1 == e) = [] := by
  induction s with
  | nil => rfl
  | cons p t ih =>
      simp only [storeKeys, List.map_cons, List.mem_cons, not_or] at h
      rw [List.filter_cons]
      have hpe : (p.1 == e) = false := by
        simp only [beq_eq_false_iff_ne]
        exact fun hh => h.1 hh.symm
      simp only [hpe, Bool.false_eq_true, if_false]
      exact ih (by simpa [storeKeys] using h.2)

theorem countKey_le_one (s : OtpStore) (h : (storeKeys s).Nodup) (e : String) :
    countKey s e ≤ 1 := by
  induction s with
  | nil => simp [countKey]
  | cons p t ih =>
      simp only [storeKeys, List.map_cons, List.nodup_cons] at h
      rw [countKey, List.filter_cons]
      by_cases hpe : (p.1 == e) = true
      · have hmem : e ∉ storeKeys t := by
          have := h.1
          rwa [eq_of_beq hpe] at this
        simp [hpe, filter_key_eq_nil t e hmem]
      · simp only [hpe, if_false]
        exact ih h.2

/-- Every send-otp call either leaves the store alone (validation
failure) or overwrites the entry for the submitted email. -/
theorem sendOtp_store_cases (store : OtpStore) (now : Nat) (otp : String)
    (req : Request) (emailOk : Bool) :
    (sendOtp store now otp req emailOk).store = store ∨
    (sendOtp store now otp req emailOk).store =
      storeSet store (req.email.getD "")
        ⟨otp, now + 5 * 60 * 1000, mkProfile req⟩ := by
  unfold sendOtp
  split
  · exact Or.inl rfl
  · split
    · exact Or.inl rfl
    · split
      · exact Or.inr rfl
      · exact Or.inr rfl

/-- Every verify-otp call either leaves the store alone or deletes the
entry for the submitted email. -/
theorem verifyOtp_store_cases (store : OtpStore) (db : Db) (now : Nat)
    (email otp : Option String) (insertOk : Bool) :
    (verifyOtp store db now email otp insertOk).store = store ∨
    (verifyOtp store db now email otp insertOk).store =
      storeDelete store (email.getD "") := by
  unfold verifyOtp
  split
  · exact Or.inl rfl
  · split
    · exact Or.inl rfl
    · split
      · exact Or.inr rfl
      · split
        · exact Or.inl rfl
        · split
          · exact Or.inr rfl
          · exact Or.inl rfl

/-- The login response does not depend on the pending store. -/
theorem login_snd_indep (store store2 : OtpStore) (db : Db)
    (role email password : Option String) :
    (login store db role email password).2 =
      (login store2 db role email password).2 := by
  unfold login
  split
  · rfl
  · dsimp only
    split
    · rfl
    · rfl

/-- Login never touches the pending store. -/
theorem login_store_unchanged (store : OtpStore) (db : Db)
    (role email password : Option String) :
    (login store db role email password).1 = store := by
  unfold login
  split
  · rfl
  · split
    · dsimp only
      split
      · rfl
      · rfl
    · dsimp only
      split
      · rfl
      · rfl

theorem step_store_nodup (s : ServerState) (op : Op)
    (h : (storeKeys s.store).Nodup) : (storeKeys (step s op).store).Nodup := by
  cases op with
  | issue now otp req emailOk =>
      show (storeKeys (sendOtp s.store now otp req emailOk).store).Nodup
      rcases sendOtp_store_cases s.store now otp req emailOk with hc | hc
      · rwa [hc]
      · rw [hc]; exact nodup_storeSet _ _ _ h
  | verify now email otp insertOk =>
      show (storeKeys (verifyOtp s.store s.db now email otp insertOk).store).Nodup
      rcases verifyOtp_store_cases s.store s.db now email otp insertOk with hc | hc
      · rwa [hc]
      · rw [hc]; exact nodup_storeDelete _ _ h
  | loginOp role email password =>
      show (storeKeys (login s.store s.db role email password).1).Nodup
      rwa [login_store_unchanged]

theorem run_store_nodup (ops : List Op) :
    ∀ s : ServerState, (storeKeys s.store).Nodup →
      (storeKeys (run s ops).store).Nodup := by
  induction ops with
  | nil => intro s h; exact h
  | cons op t ih => intro s h; exact ih (step s op) (step_store_nodup s op h)

/-! ### Branch-evaluation lemmas -/

theorem dbInsert_fst (db : Db) (b : Bool) (a : Account) :
    (dbInsert db b a).1 = db.nextId := by
  unfold dbInsert; split <;> rfl

theorem verifyOtp_not_found (store : OtpStore) (db : Db) (now : Nat)
    (email otp : Option String) (insertOk : Bool)
    (he : isTruthy email = true) (ho : isTruthy otp = true)
    (hrec : storeGet store (email.getD "") = none) :
    verifyOtp store db now email otp insertOk =
      ⟨store, db, ⟨false, "OTP not found. Please request again.", none, none⟩⟩ := by
  simp [verifyOtp, he, ho, hrec]

theorem verifyOtp_expired (store : OtpStore) (db : Db) (now : Nat)
    (email otp : Option String) (insertOk : Bool) (record : PendingRecord)
    (he : isTruthy email = true) (ho : isTruthy otp = true)
    (hrec : storeGet store (email.getD "") = some record)
    (hexp : now > record.expiresAt) :
    verifyOtp store db now email otp insertOk =
      ⟨storeDelete store (email.getD ""), db,
        ⟨false, "OTP expired.", none, none⟩⟩ := by
  simp [verifyOtp, he, ho, hrec, hexp]

theorem verifyOtp_mismatch (store : OtpStore) (db : Db) (now : Nat)
    (email otp : Option String) (insertOk : Bool) (record : PendingRecord)
    (he : isTruthy email = true) (ho : isTruthy otp = true)
    (hrec : storeGet store (email.getD "") = some record)
    (hexp : ¬ now > record.expiresAt)
    (hne : record.otp ≠ otp.getD "") :
    verifyOtp store db now email otp insertOk =
      ⟨store, db, ⟨false, "Incorrect OTP.", none, none⟩⟩ := by
  simp [verifyOtp, he, ho, hrec, hexp, hne]

theorem verifyOtp_success_eq (store : OtpStore) (db : Db) (now : Nat)
    (email otp : Option String) (record : PendingRecord)
    (he : isTruthy email = true) (ho : isTruthy otp = true)
    (hrec : storeGet store (email.getD "") = some record)
    (hexp : ¬ now > record.expiresAt)
    (hmatch : record.otp = otp.getD "") :
    verifyOtp store db now email otp true =
      ⟨storeDelete store (email.getD ""),
       (dbInsert db (record.data.role == "shopkeeper")
         ⟨record.data.name, email.getD "", record.data.phone,
           record.data.password, now⟩).2,
       ⟨true, "OTP Verified! Account created.", some db.nextId,
         some record.data.role⟩⟩ := by
  simp [verifyOtp, he, ho, hrec, hexp, hmatch, dbInsert_fst]

theorem verifyOtp_insert_fail (store : OtpStore) (db : Db) (now : Nat)
    (email otp : Option String) (record : PendingRecord)
    (he : isTruthy email = true) (ho : isTruthy otp = true)
    (hrec : storeGet store (email.getD "") = some record)
    (hexp : ¬ now > record.expiresAt)
    (hmatch : record.otp = otp.getD "") :
    verifyOtp store db now email otp false =
      ⟨store, db, ⟨false, "Server error.", none, none⟩⟩ := by
  simp [verifyOtp, he, ho, hrec, hexp, hmatch]

theorem sendOtp_valid_eq (store : OtpStore) (now : Nat) (otp : String)
    (req : Request) (emailOk : Bool)
    (h1 : allFieldsPresent req = true) (h2 : roleRecognized req = true) :
    sendOtp store now otp req emailOk =
      ⟨storeSet store (req.email.getD "")
         ⟨otp, now + 5 * 60 * 1000, mkProfile req⟩,
       if emailOk then ⟨true, "OTP sent successfully!"⟩
         else ⟨false, "Failed to send OTP."⟩,
       true, true⟩ := by
  cases emailOk <;> simp [sendOtp, h1, h2]

theorem login_valid_eq (store : OtpStore) (db : Db)
    (role email password : Option String)
    (hr : isTruthy role = true) (he : isTruthy email = true)
    (hp : isTruthy password = true) :
    login store db role email password =
      (store, db,
        match (if role.getD "" == "shopkeeper" then db.shopkeepers
            else db.users).find?
            (accountMatches (email.getD "") (password.getD "")) with
        | none => ⟨false, "Invalid email or password.", none⟩
        | some u => ⟨true, "Login successful",
            some ⟨u.id, u.account.name, u.account.email, u.account.phone,
              role.getD ""⟩⟩) := by
  simp only [login, hr, he, hp, Bool.and_self, Bool.not_true]
  rw [if_neg (by simp)]
  cases List.find? (accountMatches (email.getD "") (password.getD ""))
      (if role.getD "" == "shopkeeper" then db.shopkeepers else db.users) with
  | none => rfl
  | some u => rfl

theorem login_users_eq (store : OtpStore) (db : Db)
    (role email password : Option String)
    (hr : isTruthy role = true) (he : isTruthy email = true)
    (hp : isTruthy password = true)
    (hb : (role.getD "" == "shopkeeper") = false) :
    login store db role email password =
      (store, db,
        match db.users.find?
            (accountMatches (email.getD "") (password.getD "")) with
        | none => ⟨false, "Invalid email or password.", none⟩
        | some u => ⟨true, "Login successful",
            some ⟨u.id, u.account.name, u.account.email, u.account.phone,
              role.getD ""⟩⟩) := by
  rw [login_valid_eq store db role email password hr he hp, hb]
  simp

/-! ### Claims -/

/-- C1: when a pending record exists for the email, is not expired, and
the submitted code equals the record's otp (and, as the issuance flow
guarantees, the record's profile email is the lookup key), verification
with a succeeding insert collaborator appends exactly one new account
built from the pending record's profile fields to the collection
selected by the record's role (shopkeeper goes to the shopkeeper
collection, anything else to the user collection) leaving the other
collection unchanged, deletes the pending record, and returns success
carrying the newly assigned account identifier and the role; a second
verification for that email afterwards no longer succeeds. -/
theorem C1_verify_success_creates_account (store : OtpStore) (db : Db)
    (now : Nat) (email otp : Option String) (record : PendingRecord)
    (he : isTruthy email = true) (ho : isTruthy otp = true)
    (hrec : storeGet store (email.getD "") = some record)
    (hexp : ¬ now > record.expiresAt)
    (hmatch : record.otp = otp.getD "")
    (hmail : record.data.email = email.getD "") :
    (if record.data.role = "shopkeeper" then
        (verifyOtp store db now email otp true).db.shopkeepers =
          db.shopkeepers ++ [⟨db.nextId, ⟨record.data.name, record.data.email,
            record.data.phone, record.data.password, now⟩⟩] ∧
        (verifyOtp store db now email otp true).db.users = db.users
      else
        (verifyOtp store db now email otp true).db.users =
          db.users ++ [⟨db.nextId, ⟨record.data.name, record.data.email,
            record.data.phone, record.data.password, now⟩⟩] ∧
        (verifyOtp store db now email otp true).db.shopkeepers =
          db.shopkeepers) ∧
    storeGet (verifyOtp store db now email otp true).store (email.getD "") =
      none ∧
    (verifyOtp store db now email otp true).resp =
      ⟨true, "OTP Verified! Account created.", some db.nextId,
        some record.data.role⟩ ∧
    (∀ (now2 : Nat) (otp2 : Option String) (insertOk2 : Bool),
      isTruthy otp2 = true →
      (verifyOtp (verifyOtp store db now email otp true).store
        (verifyOtp store db now email otp true).db now2 email otp2
        insertOk2).resp =
        ⟨false, "OTP not found. Please request again.", none, none⟩) := by
  have hv := verifyOtp_success_eq store db now email otp record he ho hrec
    hexp hmatch
  refine ⟨?_, ?_, ?_, ?_⟩
  · by_cases hrole : record.data.role = "shopkeeper"
    · rw [if_pos hrole, hv, ← hmail]
      simp [dbInsert, hrole]
    · rw [if_neg hrole, hv, ← hmail]
      simp [dbInsert, hrole]
  · rw [hv]
    exact storeGet_storeDelete_self store (email.getD "")
  · rw [hv]
  · intro now2 otp2 insertOk2 ho2
    rw [hv]
    rw [verifyOtp_not_found _ _ now2 email otp2 insertOk2 he ho2
      (storeGet_storeDelete_self store (email.getD ""))]

/-- Witness for C1 at a concrete state: one pending user registration
for `a@x.com`, matching code, empty database. -/
theorem C1_verify_success_creates_account_witness :
    (verifyOtp [("a@x.com", ⟨"123456", 300000,
        ⟨"user", "Alice", "a@x.com", "111", "pw"⟩⟩)]
      ⟨[], [], 0⟩ 100 (some "a@x.com") (some "123456") true).resp =
      ⟨true, "OTP Verified! Account created.", some 0, some "user"⟩ :=
  (C1_verify_success_creates_account
    [("a@x.com", ⟨"123456", 300000, ⟨"user", "Alice", "a@x.com", "111", "pw"⟩⟩)]
    ⟨[], [], 0⟩ 100 (some "a@x.com") (some "123456")
    ⟨"123456", 300000, ⟨"user", "Alice", "a@x.com", "111", "pw"⟩⟩
    (by decide) (by decide) (by decide) (by decide) rfl rfl).2.2.1

/-- C2: when a pending record exists for the email, is not expired, and
the submitted code differs from the record's otp, verification fails
with the mismatch message and leaves the whole state (pending store and
database) unchanged; a later verification with the correct (nonempty)
code while the record is still unexpired succeeds. -/
theorem C2_wrong_code_keeps_record (store : OtpStore) (db : Db) (now : Nat)
    (email otp : Option String) (insertOk : Bool) (record : PendingRecord)
    (he : isTruthy email = true) (ho : isTruthy otp = true)
    (hrec : storeGet store (email.getD "") = some record)
    (hexp : ¬ now > record.expiresAt)
    (hne : record.otp ≠ otp.getD "")
    (hotp : record.otp ≠ "") :
    verifyOtp store db now email otp insertOk =
      ⟨store, db, ⟨false, "Incorrect OTP.", none, none⟩⟩ ∧
    (∀ now2 : Nat, ¬ now2 > record.expiresAt →
      (verifyOtp store db now2 email (some record.otp) true).resp.success =
        true) := by
  refine ⟨verifyOtp_mismatch store db now email otp insertOk record he ho
    hrec hexp hne, ?_⟩
  intro now2 h2
  have ho2 : isTruthy (some record.otp) = true := by
    have hne2 : record.otp.isEmpty = false :=
      Bool.eq_false_iff.mpr
        (fun hh => hotp ((String.isEmpty_iff record.otp).mp hh))
    simp [isTruthy, hne2]
  rw [verifyOtp_success_eq store db now2 email (some record.otp) record he
    ho2 hrec h2 rfl]

/-- Witness for C2: wrong code `999999` against pending code `123456`. -/
theorem C2_wrong_code_keeps_record_witness :
    verifyOtp [("a@x.com", ⟨"123456", 300000,
        ⟨"user", "Alice", "a@x.com", "111", "pw"⟩⟩)]
      ⟨[], [], 0⟩ 100 (some "a@x.com") (some "999999") true =
      ⟨[("a@x.com", ⟨"123456", 300000,
          ⟨"user", "Alice", "a@x.com", "111", "pw"⟩⟩)],
        ⟨[], [], 0⟩, ⟨false, "Incorrect OTP.", none, none⟩⟩ :=
  (C2_wrong_code_keeps_record
    [("a@x.com", ⟨"123456", 300000, ⟨"user", "Alice", "a@x.com", "111", "pw"⟩⟩)]
    ⟨[], [], 0⟩ 100 (some "a@x.com") (some "999999") true
    ⟨"123456", 300000, ⟨"user", "Alice", "a@x.com", "111", "pw"⟩⟩
    (by decide) (by decide) (by decide) (by decide) (by decide)
    (by decide)).1

/-- C3: when a pending record exists for the email but the current time
is past its expiresAt, verification (with any submitted code) deletes
the record, leaves the database unchanged and fails with the expired
message; any subsequent verification attempt for that email against the
resulting store fails as not found. -/
theorem C3_expired_deletes_record (store : OtpStore) (db : Db) (now : Nat)
    (email otp : Option String) (insertOk : Bool) (record : PendingRecord)
    (he : isTruthy email = true) (ho : isTruthy otp = true)
    (hrec : storeGet store (email.getD "") = some record)
    (hexp : now > record.expiresAt) :
    verifyOtp store db now email otp insertOk =
      ⟨storeDelete store (email.getD ""), db,
        ⟨false, "OTP expired.", none, none⟩⟩ ∧
    (∀ (db2 : Db) (now2 : Nat) (otp2 : Option String) (insertOk2 : Bool),
      isTruthy otp2 = true →
      verifyOtp (storeDelete store (email.getD "")) db2 now2 email otp2
        insertOk2 =
        ⟨storeDelete store (email.getD ""), db2,
          ⟨false, "OTP not found. Please request again.", none, none⟩⟩) := by
  refine ⟨verifyOtp_expired store db now email otp insertOk record he ho
    hrec hexp, ?_⟩
  intro db2 now2 otp2 insertOk2 ho2
  exact verifyOtp_not_found _ db2 now2 email otp2 insertOk2 he ho2
    (storeGet_storeDelete_self store (email.getD ""))

/-- Witness for C3: verification at time 400000 of a record that
expired at 300000, with the matching code. -/
theorem C3_expired_deletes_record_witness :
    verifyOtp [("a@x.com", ⟨"123456", 300000,
        ⟨"user", "Alice", "a@x.com", "111", "pw"⟩⟩)]
      ⟨[], [], 0⟩ 400000 (some "a@x.com") (some "123456") true =
      ⟨[], ⟨[], [], 0⟩, ⟨false, "OTP expired.", none, none⟩⟩ :=
  (C3_expired_deletes_record
    [("a@x.com", ⟨"123456", 300000, ⟨"user", "Alice", "a@x.com", "111", "pw"⟩⟩)]
    ⟨[], [], 0⟩ 400000 (some "a@x.com") (some "123456") true
    ⟨"123456", 300000, ⟨"user", "Alice", "a@x.com", "111", "pw"⟩⟩
    (by decide) (by decide) (by decide) (by decide)).1

/-- C9: when the record is found, unexpired and the code matches but
the account-store insert throws, verification answers the generic
failure response and leaves the whole state unchanged — in particular
the pending record is kept, so a retry while the record is still
unexpired succeeds. -/
theorem C9_insert_failure_keeps_record (store : OtpStore) (db : Db)
    (now : Nat) (email otp : Option String) (record : PendingRecord)
    (he : isTruthy email = true) (ho : isTruthy otp = true)
    (hrec : storeGet store (email.getD "") = some record)
    (hexp : ¬ now > record.expiresAt)
    (hmatch : record.otp = otp.getD "") :
    verifyOtp store db now email otp false =
      ⟨store, db, ⟨false, "Server error.", none, none⟩⟩ ∧
    (∀ now2 : Nat, ¬ now2 > record.expiresAt →
      (verifyOtp store db now2 email otp true).resp.success = true) := by
  refine ⟨verifyOtp_insert_fail store db now email otp record he ho hrec
    hexp hmatch, ?_⟩
  intro now2 h2
  rw [verifyOtp_success_eq store db now2 email otp record he ho hrec h2
    hmatch]

/-- Witness for C9: failing insert with a matching unexpired code. -/
theorem C9_insert_failure_keeps_record_witness :
    verifyOtp [("a@x.com", ⟨"123456", 300000,
        ⟨"user", "Alice", "a@x.com", "111", "pw"⟩⟩)]
      ⟨[], [], 0⟩ 100 (some "a@x.com") (some "123456") false =
      ⟨[("a@x.com", ⟨"123456", 300000,
          ⟨"user", "Alice", "a@x.com", "111", "pw"⟩⟩)],
        ⟨[], [], 0⟩, ⟨false, "Server error.", none, none⟩⟩ :=
  (C9_insert_failure_keeps_record
    [("a@x.com", ⟨"123456", 300000, ⟨"user", "Alice", "a@x.com", "111", "pw"⟩⟩)]
    ⟨[], [], 0⟩ 100 (some "a@x.com") (some "123456")
    ⟨"123456", 300000, ⟨"user", "Alice", "a@x.com", "111", "pw"⟩⟩
    (by decide) (by decide) (by decide) (by decide) rfl).1

/-- C4: starting from a store with no duplicate email keys, after any
sequence of requests the store still holds at most one pending record
per email, and a further validated issuance for an email overwrites
whatever was pending for it: the lookup afterwards yields exactly the
newly built record. -/
theorem C4_at_most_one_record_per_email (s : ServerState) (ops : List Op)
    (h : (storeKeys s.store).Nodup) :
    (∀ e, countKey (run s ops).store e ≤ 1) ∧
    (∀ (now : Nat) (otp : String) (req : Request) (emailOk : Bool),
      allFieldsPresent req = true → roleRecognized req = true →
      storeGet (step (run s ops) (Op.issue now otp req emailOk)).store
        (req.email.getD "") =
        some ⟨otp, now + 5 * 60 * 1000, mkProfile req⟩) := by
  have hn := run_store_nodup ops s h
  refine ⟨fun e => countKey_le_one _ hn e, ?_⟩
  intro now otp req emailOk h1 h2
  show storeGet (sendOtp (run s ops).store now otp req emailOk).store
    (req.email.getD "") = _
  rw [sendOtp_valid_eq _ now otp req emailOk h1 h2]
  exact storeGet_storeSet_self _ _ _

/-- Witness for C4: issuing from the empty state stores the new
record under the submitted email. -/
theorem C4_at_most_one_record_per_email_witness :
    storeGet (step (run ⟨[], ⟨[], [], 0⟩⟩ [])
        (Op.issue 5 "123456" ⟨some "user", some "Alice", some "a@x.com",
          some "111", some "pw"⟩ true)).store "a@x.com" =
      some ⟨"123456", 5 + 5 * 60 * 1000,
        ⟨"user", "Alice", "a@x.com", "111", "pw"⟩⟩ :=
  (C4_at_most_one_record_per_email ⟨[], ⟨[], [], 0⟩⟩ [] (by decide)).2
    5 "123456" ⟨some "user", some "Alice", some "a@x.com", some "111",
      some "pw"⟩ true rfl rfl

/-- C5 counterexample: the object stored into `OTP_STORE[email]`
(server.js lines 54-58) has keys `otp`, `expiresAt` and `data` only —
it carries no `issuedAt` timestamp, contrary to the claim. -/
theorem C5_no_issuedAt_field : "issuedAt" ∉ pendingRecordFields := by
  decide

/-- C5 amended: every pending record written by a validated issuance
carries an absolute `expiresAt` timestamp equal to the issuance time
plus 5 minutes (300000 ms); no `issuedAt` field is stored, the
issuance time being recoverable only as `expiresAt` minus 5 minutes. -/
theorem C5_expiresAt_is_issuance_plus_5min (store : OtpStore) (now : Nat)
    (otp : String) (req : Request) (emailOk : Bool)
    (h1 : allFieldsPresent req = true) (h2 : roleRecognized req = true) :
    storeGet (sendOtp store now otp req emailOk).store (req.email.getD "") =
      some ⟨otp, now + 5 * 60 * 1000, mkProfile req⟩ ∧
    "issuedAt" ∉ pendingRecordFields := by
  rw [sendOtp_valid_eq store now otp req emailOk h1 h2]
  exact ⟨storeGet_storeSet_self _ _ _, by decide⟩

/-- Witness for C5 (amended): concrete issuance at time 7. -/
theorem C5_expiresAt_is_issuance_plus_5min_witness :
    storeGet (sendOtp [] 7 "654321" ⟨some "shopkeeper", some "Bob",
        some "b@x.com", some "222", some "pw2"⟩ true).store "b@x.com" =
      some ⟨"654321", 7 + 5 * 60 * 1000,
        ⟨"shopkeeper", "Bob", "b@x.com", "222", "pw2"⟩⟩ :=
  (C5_expiresAt_is_issuance_plus_5min [] 7 "654321"
    ⟨some "shopkeeper", some "Bob", some "b@x.com", some "222", some "pw2"⟩
    true rfl rfl).1

/-- C6: an issuance request missing any of role, name, email, phone,
password, or whose role is neither "user" nor "shopkeeper", fails with
`success:false`, stores nothing (the store is unchanged), generates no
OTP and never invokes the email collaborator. -/
theorem C6_issuance_validation (store : OtpStore) (now : Nat) (otp : String)
    (req : Request) (emailOk : Bool)
    (h : allFieldsPresent req = false ∨ roleRecognized req = false) :
    (sendOtp store now otp req emailOk).resp.success = false ∧
    (sendOtp store now otp req emailOk).store = store ∧
    (sendOtp store now otp req emailOk).otpGenerated = false ∧
    (sendOtp store now otp req emailOk).emailInvoked = false := by
  rcases h with h | h
  · simp [sendOtp, h]
  · cases h1 : allFieldsPresent req
    · simp [sendOtp, h1]
    · simp [sendOtp, h1, h]

/-- Witness for C6: a request with role "admin" is rejected. -/
theorem C6_issuance_validation_witness :
    (sendOtp [] 0 "123456" ⟨some "admin", some "Eve", some "e@x.com",
        some "333", some "pw3"⟩ true).resp.success = false ∧
    (sendOtp [] 0 "123456" ⟨some "admin", some "Eve", some "e@x.com",
        some "333", some "pw3"⟩ true).store = [] :=
  ⟨(C6_issuance_validation [] 0 "123456" ⟨some "admin", some "Eve",
      some "e@x.com", some "333", some "pw3"⟩ true (Or.inr rfl)).1,
   (C6_issuance_validation [] 0 "123456" ⟨some "admin", some "Eve",
      some "e@x.com", some "333", some "pw3"⟩ true (Or.inr rfl)).2.1⟩

/-- C7: on a valid issuance whose email-send collaborator fails, the
flow answers the delivery-failure response but the freshly written
pending record (code, expiry, profile) is still in the store — no
rollback happens. -/
theorem C7_email_failure_keeps_record (store : OtpStore) (now : Nat)
    (otp : String) (req : Request)
    (h1 : allFieldsPresent req = true) (h2 : roleRecognized req = true) :
    (sendOtp store now otp req false).resp =
      ⟨false, "Failed to send OTP."⟩ ∧
    storeGet (sendOtp store now otp req false).store (req.email.getD "") =
      some ⟨otp, now + 5 * 60 * 1000, mkProfile req⟩ := by
  rw [sendOtp_valid_eq store now otp req false h1 h2]
  exact ⟨rfl, storeGet_storeSet_self _ _ _⟩

/-- Witness for C7: failed send still leaves the pending record. -/
theorem C7_email_failure_keeps_record_witness :
    storeGet (sendOtp [] 9 "123456" ⟨some "user", some "Carol",
        some "c@x.com", some "444", some "pw4"⟩ false).store "c@x.com" =
      some ⟨"123456", 9 + 5 * 60 * 1000,
        ⟨"user", "Carol", "c@x.com", "444", "pw4"⟩⟩ :=
  (C7_email_failure_keeps_record [] 9 "123456"
    ⟨some "user", some "Carol", some "c@x.com", some "444", some "pw4"⟩
    rfl rfl).2

/-- C8: a login with all three fields present succeeds exactly when the
collection selected by the role holds an account whose email and
password both equal the submitted values by plain string equality; on
success the response carries a matching account's id, name, email and
phone plus the requested role, on no match it carries the
invalid-credentials message; and the call neither mutates the pending
store nor lets its response depend on it. -/
theorem C8_login_iff_matching_account (store : OtpStore) (db : Db)
    (role email password : Option String)
    (hr : isTruthy role = true) (he : isTruthy email = true)
    (hp : isTruthy password = true) :
    ((login store db role email password).2.2.success = true ↔
      ∃ sa ∈ (if role.getD "" == "shopkeeper" then db.shopkeepers
        else db.users),
        accountMatches (email.getD "") (password.getD "") sa = true) ∧
    ((login store db role email password).2.2.success = false →
      (login store db role email password).2.2 =
        ⟨false, "Invalid email or password.", none⟩) ∧
    (∀ u, (login store db role email password).2.2.user = some u →
      ∃ sa ∈ (if role.getD "" == "shopkeeper" then db.shopkeepers
          else db.users),
        accountMatches (email.getD "") (password.getD "") sa = true ∧
        u = ⟨sa.id, sa.account.name, sa.account.email, sa.account.phone,
          role.getD ""⟩) ∧
    (login store db role email password).1 = store ∧
    (∀ store2, (login store2 db role email password).2 =
      (login store db role email password).2) := by
  have hv := login_valid_eq store db role email password hr he hp
  refine ⟨?_, ?_, ?_, login_store_unchanged store db role email password,
    fun store2 => login_snd_indep store2 store db role email password⟩
  · rw [hv]
    cases hfind : List.find? (accountMatches (email.getD "") (password.getD ""))
        (if role.getD "" == "shopkeeper" then db.shopkeepers else db.users) with
    | none =>
        constructor
        · intro hfalse
          exact absurd hfalse (by simp)
        · rintro ⟨sa, hmem, hsa⟩
          exact absurd hsa (List.find?_eq_none.mp hfind sa hmem)
    | some u =>
        constructor
        · intro _
          exact ⟨u, List.mem_of_find?_eq_some hfind, List.find?_some hfind⟩
        · intro _
          rfl
  · rw [hv]
    cases hfind : List.find? (accountMatches (email.getD "") (password.getD ""))
        (if role.getD "" == "shopkeeper" then db.shopkeepers else db.users) with
    | none => intro _; rfl
    | some u => intro hfalse; exact absurd hfalse (by simp)
  · rw [hv]
    cases hfind : List.find? (accountMatches (email.getD "") (password.getD ""))
        (if role.getD "" == "shopkeeper" then db.shopkeepers else db.users) with
    | none => intro u hu; exact absurd hu (by simp)
    | some u =>
        intro u' hu'
        refine ⟨u, List.mem_of_find?_eq_some hfind, List.find?_some hfind, ?_⟩
        exact (Option.some.inj hu').symm

/-- Witness for C8: matching user-collection credentials succeed. -/
theorem C8_login_iff_matching_account_witness :
    ((login [] ⟨[⟨0, ⟨"Alice", "a@x.com", "111", "pw", 0⟩⟩], [], 1⟩
        (some "user") (some "a@x.com") (some "pw")).2.2.success = true ↔
      ∃ sa ∈ (if (some "user").getD "" == "shopkeeper" then
          ([] : List StoredAccount)
        else [⟨0, ⟨"Alice", "a@x.com", "111", "pw", 0⟩⟩]),
        accountMatches "a@x.com" "pw" sa = true) :=
  (C8_login_iff_matching_account []
    ⟨[⟨0, ⟨"Alice", "a@x.com", "111", "pw", 0⟩⟩], [], 1⟩
    (some "user") (some "a@x.com") (some "pw")
    (by decide) (by decide) (by decide)).1

/-- C10: the login flow never validates the role: with all three
fields present, any role other than "shopkeeper" — "admin" included —
is looked up in the user collection (the shopkeeper collection is
irrelevant to the response), success is decided by a match in the user
collection, and the submitted role value is echoed back verbatim in a
successful response. -/
theorem C10_login_no_role_validation (store : OtpStore) (db : Db)
    (role email password : Option String)
    (hr : isTruthy role = true) (he : isTruthy email = true)
    (hp : isTruthy password = true)
    (hrole : role.getD "" ≠ "shopkeeper") :
    (∀ shop2 : List StoredAccount,
      (login store ⟨db.users, shop2, db.nextId⟩ role email password).2.2 =
        (login store db role email password).2.2) ∧
    ((login store db role email password).2.2.success = true ↔
      ∃ sa ∈ db.users,
        accountMatches (email.getD "") (password.getD "") sa = true) ∧
    (∀ u, (login store db role email password).2.2.user = some u →
      u.role = role.getD "") := by
  have hb : (role.getD "" == "shopkeeper") = false := by
    simp [hrole]
  have hv := login_users_eq store db role email password hr he hp hb
  refine ⟨?_, ?_, ?_⟩
  · intro shop2
    rw [hv, login_users_eq store ⟨db.users, shop2, db.nextId⟩ role email
      password hr he hp hb]
  · rw [hv]
    cases hfind : List.find?
        (accountMatches (email.getD "") (password.getD "")) db.users with
    | none =>
        constructor
        · intro hfalse
          exact absurd hfalse (by simp)
        · rintro ⟨sa, hmem, hsa⟩
          exact absurd hsa (List.find?_eq_none.mp hfind sa hmem)
    | some u =>
        constructor
        · intro _
          exact ⟨u, List.mem_of_find?_eq_some hfind, List.find?_some hfind⟩
        · intro _
          rfl
  · rw [hv]
    cases hfind : List.find?
        (accountMatches (email.getD "") (password.getD "")) db.users with
    | none => intro u hu; exact absurd hu (by simp)
    | some u =>
        intro u' hu'
        rw [← Option.some.inj hu']

/-- Witness for C10: role "admin" with credentials that only a
shopkeeper account matches still fails, because the lookup happens in
the (empty) user collection. -/
theorem C10_login_no_role_validation_witness :
    ((login [] ⟨[], [⟨0, ⟨"Bob", "b@x.com", "222", "pw2", 0⟩⟩], 1⟩
        (some "admin") (some "b@x.com") (some "pw2")).2.2.success = true ↔
      ∃ sa ∈ ([] : List StoredAccount),
        accountMatches "b@x.com" "pw2" sa = true) :=
  (C10_login_no_role_validation []
    ⟨[], [⟨0, ⟨"Bob", "b@x.com", "222", "pw2", 0⟩⟩], 1⟩
    (some "admin") (some "b@x.com") (some "pw2")
    (by decide) (by decide) (by decide) (by decide)).2.1

end Whackers
